import Mathlib

/-!
Verification development for the Ballon d'Or prediction pipeline.

The repository has two variants of the pipeline:
* `src/scikitlearn.py` — column resolution (`find_column`), feature derivation
  (`load_and_prepare`), scoring and ranking (`compute_scores`), and the Flask route
  that exposes the predicted winner;
* `src/app.py` — `predict_ballon_dor`, a variant with hard-coded column names, its own
  local `count_items`, and a `dropna` on the coerced rating column.

Both are embedded below.  Tabular data is modelled as lists of rows whose cells are
`Option String` (`none` is a missing value / NaN, mirroring how `pd.read_csv` represents
empty cells); numeric values are modelled as `ℚ` (the floating-point arithmetic performed
by the source on these dyadic values — sums of halves and small integers — is exact, so
rationals are a faithful carrier).
-/

namespace BallonDor

/-- The ASCII whitespace characters removed by Python `str.strip()`
(the data contains no exotic Unicode whitespace). -/
def isPySpace (c : Char) : Bool :=
  c = ' ' || c = '\t' || c = '\n' || c = '\r' || c = '\x0b' || c = '\x0c'

/-- Python `str.strip()` on a character list. -/
def pyStripList (l : List Char) : List Char :=
  ((l.dropWhile isPySpace).reverse.dropWhile isPySpace).reverse

/-- Python `str.strip()`: whitespace removed from both ends. -/
def pyStrip (s : String) : String := String.mk (pyStripList s.toList)

/-- Python `str.lower()` (ASCII case folding; all letters in the data are ASCII). -/
def pyLower (s : String) : String := String.mk (s.toList.map Char.toLower)

/-- Python `str.replace(old, new)` for single-character arguments
(the source only replaces `';'` by `','`). -/
def pyReplaceChar (s : String) (old new : Char) : String :=
  String.mk (s.toList.map fun c => if c = old then new else c)

/-- Python `needle in haystack` (substring test) on character lists. -/
def containsSub (needle : List Char) : List Char → Bool
  | [] => needle.isPrefixOf []
  | c :: rest => needle.isPrefixOf (c :: rest) || containsSub needle rest

/-- Helper for Python `str.split(sep)` with a nonempty separator `d :: ds`:
left-to-right scan, splitting at each non-overlapping occurrence of the separator.
`fuel` is a structural-recursion bound; every step consumes at least one character, so
the caller passes the input length and the out-of-fuel branch is never reached. -/
def pySplitAux (d : Char) (ds : List Char) : Nat → List Char → List Char → List (List Char)
  | _, [], acc => [acc.reverse]
  | 0, l, acc => [acc.reverse ++ l]
  | fuel + 1, c :: cs, acc =>
    if (d :: ds).isPrefixOf (c :: cs) then
      acc.reverse :: pySplitAux d ds fuel (cs.drop ds.length) []
    else
      pySplitAux d ds fuel cs (c :: acc)

/-- Python `str.split(sep)`.  An empty separator raises in Python and is never used by
the source; it is mapped to the identity split here. -/
def pySplit (s : String) (sep : String) : List String :=
  match sep.toList with
  | [] => [s]
  | d :: ds => (pySplitAux d ds s.toList.length s.toList []).map String.mk

/-- `count_items` from `src/scikitlearn.py` lines 14–21.  A missing cell (`pd.isna`)
or a placeholder (`''`, `'—'`, `'-'`, `'None'`, `'nan'` after stripping) counts 0;
otherwise semicolons are normalised to commas, the string is split on commas, and the
tokens with nonempty stripped form are counted.  The `delimiter` parameter is accepted
but never read by the source body. -/
def count_items (text : Option String) (delimiter : String) : Nat :=
  match text with
  | none => 0
  | some t =>
    let s := pyStrip t
    if s = "" || s = "—" || s = "-" || s = "None" || s = "nan" then 0
    else ((pySplit (pyReplaceChar s ';' ',') ",").filter (fun p => pyStrip p ≠ "")).length

/-- The local `count_items` inside `predict_ballon_dor` in `src/app.py` lines 34–37:
missing or the em-dash `'—'` counts 0, otherwise `len(str(text).split(delimiter))` —
no placeholder list, no trimming, and empty parts are counted. -/
def count_items_app (text : Option String) (delimiter : String) : Nat :=
  match text with
  | none => 0
  | some t => if t = "—" then 0 else (pySplit t delimiter).length

/-- The normalisation `str(c).lower().strip()` applied to headers and candidates in
`find_column` (`src/scikitlearn.py` lines 32, 34, 39). -/
def normKey (s : String) : String := pyStrip (pyLower s)

/-- Lookup in the dict comprehension `{str(c).lower().strip(): c for c in df.columns}`
(`src/scikitlearn.py` line 32): when two headers normalise to the same key the later
insertion wins, hence the search over the reversed header list. -/
def colMapLookup (headers : List String) (key : String) : Option String :=
  headers.reverse.find? (fun h => normKey h = key)

/-- `find_column` from `src/scikitlearn.py` lines 24–43, with the dataframe abstracted
to its header list.  Pass 1: first candidate whose normalised key is in the header map.
Pass 2 (only if pass 1 fails): for each candidate in order, the first header whose
lower-cased form contains the normalised candidate as a substring.  Otherwise `none`
(the `df is None` guard cannot fire in this embedding, where a table is never null). -/
def find_column (headers : List String) (candidates : List String) : Option String :=
  match candidates.findSome? (fun cand => colMapLookup headers (normKey cand)) with
  | some col => some col
  | none =>
      candidates.findSome? (fun cand =>
        headers.find? (fun col => containsSub (normKey cand).toList (pyLower col).toList))

/-- Numeric value of a digit list, most significant digit first. -/
def digitsToNat (l : List Char) : Nat := l.foldl (fun a c => 10 * a + (c.toNat - 48)) 0

/-- Addition on `ℚ` in `mkRat` form.  The library's `Rat.add` is sealed
`@[irreducible]`, so this computable form is used inside the embedding; it is provably
the same operation (`ratAdd_eq_add` below). -/
def ratAdd (a b : ℚ) : ℚ := mkRat (a.num * b.den + b.num * a.den) (a.den * b.den)

/-- Multiplication on `ℚ` in `mkRat` form; provably `*` (`ratMul_eq_mul` below). -/
def ratMul (a b : ℚ) : ℚ := mkRat (a.num * b.num) (a.den * b.den)

/-- Embedding of `ℕ` into `ℚ` in `mkRat` form; provably the cast
(`ratOfNat_eq_cast` below). -/
def ratOfNat (n : Nat) : ℚ := mkRat n 1

/-- Unsigned part of a decimal literal (digits, optionally a point and more digits),
built as the exact rational `intpart.frac = (intpart·10^k + frac) / 10^k`. -/
def pyFloatCore (neg : Bool) (cs : List Char) : Option ℚ :=
  let intPart := cs.takeWhile Char.isDigit
  let rest := cs.dropWhile Char.isDigit
  let build : List Char → List Char → ℚ := fun ip frac =>
    let v : Int := (digitsToNat ip * 10 ^ frac.length + digitsToNat frac : Nat)
    mkRat (if neg then -v else v) (10 ^ frac.length)
  match rest with
  | [] => if intPart.isEmpty then none else some (build intPart [])
  | '.' :: frac =>
      if frac.all Char.isDigit && !(intPart.isEmpty && frac.isEmpty) then
        some (build intPart frac)
      else none
  | _ => none

/-- Model of float coercion of one textual value as done by
`pd.to_numeric(…, errors='coerce')`: an optionally signed decimal literal, surrounding
whitespace allowed, `none` (NaN) when parsing fails.  Exponent notation and the special
float spellings are not exercised by this data and are out of scope. -/
def pyFloat (s : String) : Option ℚ :=
  match (pyStrip s).toList with
  | '-' :: cs => pyFloatCore true cs
  | '+' :: cs => pyFloatCore false cs
  | cs => pyFloatCore false cs

/-- `pd.to_numeric(…, errors='coerce')` on one cell: a missing value stays missing. -/
def toNumericCell (c : Option String) : Option ℚ := c.bind pyFloat

/-- A loaded dataframe: header row plus rows of optional textual cells
(`none` is NaN, as produced by `pd.read_csv` for an empty cell). -/
structure Table where
  headers : List String
  rows : List (List (Option String))

/-- `row[col]`: the cell under the first header equal to `col` (`none` when the header
is absent or the row is short).  Within `load_and_prepare` the header always exists,
since it was returned by `find_column` over this very header list. -/
def getCell (headers : List String) (row : List (Option String)) (col : String) :
    Option String :=
  match headers.findIdx? (fun h => h = col) with
  | none => none
  | some i => row.getD i none

/-- Candidate header names, `src/scikitlearn.py` line 59. -/
def avg_candidates : List String :=
  ["Avg. Rating", "Average Rating", "Avg Rating", "Avg_Rating",
   "Avg Rating (2024–25)", "Rating"]

/-- Candidate header names, `src/scikitlearn.py` lines 60–63. -/
def trophies_candidates : List String :=
  ["Major Club Trophies", "Major Trophies (2024–25)", "Major Trophies",
   "Major Club Trophies (2024–25)", "Trophies", "Major trophies"]

/-- Candidate header names, `src/scikitlearn.py` lines 64–67. -/
def awards_candidates : List String :=
  ["Individual Awards", "Individual Awards (2024–25)", "Individual awards",
   "Individual_Awards", "Awards", "Individual awards (2024–25)"]

/-- Candidate header names, `src/scikitlearn.py` line 68. -/
def club_candidates : List String := ["Club", "Team", "Club (league)", "Club (team)"]

/-- Candidate header names, `src/scikitlearn.py` line 69. -/
def player_candidates : List String :=
  ["Player", "Name", "Full name", "Full Name", "Player Name", "player", "name"]

/-- Capture of the regex `\((.*?)\)` after the opening bracket: the characters up to
the first `')'`, or `none` when no `')'` follows. -/
def takeUntilClose : List Char → Option (List Char)
  | [] => none
  | c :: cs => if c = ')' then some [] else (takeUntilClose cs).map (c :: ·)

/-- The suffix starting at the first `'('`, empty when there is none: the scan of the
regex `\((.*?)\)` for its opening bracket. -/
def skipToOpen : List Char → List Char
  | [] => []
  | c :: cs => if c = '(' then c :: cs else skipToOpen cs

/-- Model of `.str.extract(r'\((.*?)\)')` on one value: the text strictly between the
first `'('` and the first `')'` after it; `none` (NaN) when there is no such pair.
(`.` in the regex does not cross a newline; the cells contain none.) -/
def extractParen (s : String) : Option String :=
  match skipToOpen s.toList with
  | [] => none
  | _ :: rest => (takeUntilClose rest).map (fun l => String.mk l)

/-- The characters before the first occurrence of `c` (the whole list when absent):
what `str.split` keeps as its first part. -/
def takeToChar (c : Char) : List Char → List Char
  | [] => []
  | x :: xs => if x = c then [] else x :: takeToChar c xs

/-- `Series.astype(str)` on one cell: NaN prints as the literal string `"nan"`. -/
def pyStrOfCell : Option String → String
  | none => "nan"
  | some s => s

/-- League derivation of `src/scikitlearn.py` lines 146–147 on one club cell:
`astype(str)`, `.str.extract(r'\((.*?)\)')`, then `.astype(str)` — which turns a failed
match (NaN) into the literal string `"nan"` — then `.str.split(',').str[0].str.strip()`. -/
def leagueOfClubCell (cell : Option String) : String :=
  pyStrip ((pySplit (pyStrOfCell (extractParen (pyStrOfCell cell))) ",").headD "")

/-- League derivation of `src/app.py` lines 48–49 on one club cell: same chain but with
no second `astype(str)`, so a failed match stays missing (`.str` methods keep NaN). -/
def leagueOfClubCellApp (cell : Option String) : Option String :=
  (extractParen (pyStrOfCell cell)).map (fun m => pyStrip ((pySplit m ",").headD ""))

/-- Python truthiness of an optional column name (the source tests `if col:`): an empty
string is falsy like `None`. -/
def optTruthy : Option String → Option String
  | some "" => none
  | o => o

/-- One row of the derived shortlist table of `load_and_prepare`
(`src/scikitlearn.py` lines 88–149): the derived columns `Player`, `Avg_Rating`,
`Num_Trophies`, `Num_Awards`, `Club`, `League`. -/
structure PreparedRow where
  player : Option String
  avgRating : Option ℚ
  numTrophies : Nat
  numAwards : Nat
  club : Option String
  league : Option String
deriving Repr, DecidableEq

/-- The diagnostic record `detected` built at `src/scikitlearn.py` lines 151–159. -/
structure Detected where
  avgSource : Option String
  avgColumn : Option String
  trophiesSource : Option String
  trophiesColumn : Option String
  awardsSource : Option String
  awardsColumn : Option String
  clubSource : Option String
  clubColumn : Option String
  playerShortlistColumn : Option String
  playerWinnersColumn : Option String
  shortlistColumns : List String
  winnersColumns : List String
deriving Repr, DecidableEq

/-- The per-row feature derivation of `load_and_prepare` (`src/scikitlearn.py`
lines 88–149), given the resolved (truthy) shortlist column of each logical feature:
`Player` copied from its resolved column (lines 91–98, NaN when unresolvable on the
shortlist), `Avg_Rating` coerced (lines 100–108), `Num_Trophies` and `Num_Awards`
counted (lines 110–127, 0 when the column is absent), `Club` copied (lines 129–142)
and `League` extracted from the club text (lines 144–149). -/
def prepareRow (sHeaders : List String)
    (player_col avg_col trophies_col awards_col club_col : Option String)
    (r : List (Option String)) : PreparedRow :=
  { player := match player_col with
      | some pc => getCell sHeaders r pc
      | none => none
    avgRating := match avg_col with
      | some ac => toNumericCell (getCell sHeaders r ac)
      | none => none
    numTrophies := match trophies_col with
      | some tc => count_items (getCell sHeaders r tc) ","
      | none => 0
    numAwards := match awards_col with
      | some ac => count_items (getCell sHeaders r ac) ","
      | none => 0
    club := match club_col with
      | some cc => getCell sHeaders r cc
      | none => none
    league := match club_col with
      | some cc => some (leagueOfClubCell (getCell sHeaders r cc))
      | none => none }

/-- `load_and_prepare` from `src/scikitlearn.py` lines 46–161, with the two loaded
tables as parameters (the CSV reading of lines 48–52 is the external collaborator).
Header whitespace is stripped (lines 55–56), the five logical columns are resolved on
both tables, and the derived shortlist rows plus the `detected` record are returned.
The source's `if col:` tests use Python truthiness, hence `optTruthy`. -/
def load_and_prepare (winners shortlist : Table) : List PreparedRow × Detected :=
  let wHeaders := winners.headers.map pyStrip
  let sHeaders := shortlist.headers.map pyStrip
  let avg_col_short := optTruthy (find_column sHeaders avg_candidates)
  let avg_col_win := optTruthy (find_column wHeaders avg_candidates)
  let trophies_col_short := optTruthy (find_column sHeaders trophies_candidates)
  let trophies_col_win := optTruthy (find_column wHeaders trophies_candidates)
  let awards_col_short := optTruthy (find_column sHeaders awards_candidates)
  let awards_col_win := optTruthy (find_column wHeaders awards_candidates)
  let club_col_short := optTruthy (find_column sHeaders club_candidates)
  let club_col_win := optTruthy (find_column wHeaders club_candidates)
  let player_col_short := optTruthy (find_column sHeaders player_candidates)
  let player_col_win := optTruthy (find_column wHeaders player_candidates)
  let rows := shortlist.rows.map (prepareRow sHeaders player_col_short avg_col_short
    trophies_col_short awards_col_short club_col_short)
  let detected : Detected :=
    { avgSource := match avg_col_short, avg_col_win with
        | some _, _ => some "shortlist"
        | none, some _ => some "winners"
        | none, none => none
      avgColumn := match avg_col_short with
        | some c => some c
        | none => avg_col_win
      trophiesSource := match trophies_col_short, trophies_col_win with
        | some _, _ => some "shortlist"
        | none, some _ => some "winners"
        | none, none => none
      trophiesColumn := match trophies_col_short with
        | some c => some c
        | none => trophies_col_win
      awardsSource := match awards_col_short, awards_col_win with
        | some _, _ => some "shortlist"
        | none, some _ => some "winners"
        | none, none => none
      awardsColumn := match awards_col_short with
        | some c => some c
        | none => awards_col_win
      clubSource := match club_col_short, club_col_win with
        | some _, _ => some "shortlist"
        | none, some _ => some "winners"
        | none, none => none
      clubColumn := match club_col_short with
        | some c => some c
        | none => club_col_win
      playerShortlistColumn := player_col_short
      playerWinnersColumn := player_col_win
      shortlistColumns := sHeaders
      winnersColumns := wHeaders }
  (rows, detected)

/-- `TROPHY_BONUS` (`src/scikitlearn.py` line 165 and `src/app.py` line 58). -/
def TROPHY_BONUS : ℚ := 2

/-- `AWARDS_BONUS` (`src/scikitlearn.py` line 166 and `src/app.py` line 59): the float
literal `1.5`, written in `mkRat` form so it computes (see `AWARDS_BONUS_eq`). -/
def AWARDS_BONUS : ℚ := mkRat 3 2

/-- The league allow-set (`src/scikitlearn.py` line 171 and `src/app.py` line 50). -/
def top_5_leagues : List String :=
  ["Premier League", "La Liga", "Serie A", "Bundesliga", "Ligue 1"]

/-- `Final_Score` of one row (`src/scikitlearn.py` lines 174–175):
`Avg_Rating.fillna(0) + Num_Trophies * TROPHY_BONUS + Num_Awards * AWARDS_BONUS`,
written with the computable `mkRat` operations (see `finalScoreOf_eq` for the same
formula under the ordinary `ℚ` operations). -/
def finalScoreOf (r : PreparedRow) : ℚ :=
  ratAdd (ratAdd (r.avgRating.getD 0) (ratMul (ratOfNat r.numTrophies) TROPHY_BONUS))
    (ratMul (ratOfNat r.numAwards) AWARDS_BONUS)

/-- A derived row together with the two score columns added by `compute_scores`. -/
structure ScoredRow where
  row : PreparedRow
  avgRatingFilled : ℚ
  finalScore : ℚ
deriving Repr, DecidableEq

/-- One row of `usable_mask` (`src/scikitlearn.py` line 178): after `replace(0, nan)`
some of the three feature cells is non-null — the rating is present and nonzero, or a
trophy or award count is nonzero. -/
def usableRow (r : PreparedRow) : Bool :=
  (match r.avgRating with | some q => decide (q ≠ 0) | none => false)
    || r.numTrophies ≠ 0 || r.numAwards ≠ 0

/-- The league pre-filter (`src/scikitlearn.py` lines 170–172): retain rows whose
`League` is in `top_5_leagues` (`isin` is false at a missing value). -/
def leagueFilter (top5Only : Bool) (rows : List PreparedRow) : List PreparedRow :=
  if top5Only then
    rows.filter (fun r => match r.league with
      | some l => top_5_leagues.contains l
      | none => false)
  else rows

/-- `df.sort_values(by='Final_Score', ascending=False)` (`src/scikitlearn.py` line 182,
`src/app.py` line 69).  The source uses the pandas default `kind='quicksort'` (numpy
introsort): the output is ordered descending by the key, but the relative order of
rows with EQUAL keys is not guaranteed by the source — introsort reorders equal
elements once an array exceeds numpy's small insertion-sort threshold, and is only
incidentally stable below it.  An executable embedding must still pick one concrete
output order; this definition composes pandas' `nargsort` construction (reverse the
values and indices, ascending argsort, reverse the indexer) with a stable ascending
kernel, which happens to put ties in input order — an arbitrary modelling choice the
source does not promise.  The facts proved through this definition below (membership,
length, per-row scores, error behaviour, and concrete rankings whose compared scores
are pairwise distinct or of length one) are all independent of the tie order. -/
def sort_values_desc {α : Type} (key : α → ℚ) (xs : List α) : List α :=
  (xs.reverse.insertionSort (fun a b => key a ≤ key b)).reverse

/-- The failure raised by `compute_scores` (`src/scikitlearn.py` line 180): a
`ValueError` whose message carries the `detected` diagnostic record. -/
inductive ScoreError where
  | noValidFeatures (detected : Detected)
deriving DecidableEq

/-- The two columns added at `src/scikitlearn.py` lines 174–175:
`Avg_Rating_filled = Avg_Rating.fillna(0)` and `Final_Score`. -/
def scoreRow (r : PreparedRow) : ScoredRow :=
  { row := r, avgRatingFilled := r.avgRating.getD 0, finalScore := finalScoreOf r }

/-- `compute_scores` from `src/scikitlearn.py` lines 164–183: optional league filter,
`Final_Score` computation, the no-usable-features guard, then the descending sort
(`reset_index(drop=True)` renumbers the index and does not affect the row order). -/
def compute_scores (rows : List PreparedRow) (detected : Detected) (top5Only : Bool) :
    Except ScoreError (List ScoredRow) :=
  let flt := leagueFilter top5Only rows
  let scored := flt.map scoreRow
  if (flt.filter usableRow).length = 0 then
    .error (.noValidFeatures detected)
  else
    .ok (sort_values_desc (fun sr => sr.finalScore) scored)

/-- Outcome of the winner selection in the route. -/
inductive WinnerOutcome where
  | noClear
  | winner (p : Option String)
deriving DecidableEq

/-- The predicted-winner selection of the route (`src/scikitlearn.py` line 214):
`"No clear winner"` when every `Player` cell is missing (vacuously so on an empty
ranking), otherwise the `Player` cell of the top-ranked row. -/
def predicted_winner (ranking : List ScoredRow) : WinnerOutcome :=
  if ranking.all (fun sr => sr.row.player = none) then .noClear
  else .winner ((ranking.head?.map (fun sr => sr.row.player)).getD none)

/-- One processed shortlist row of `predict_ballon_dor` (`src/app.py`): the original
cells plus the derived columns. -/
structure AppRow where
  raw : List (Option String)
  avgRating : ℚ
  league : Option String
  numTrophies : Nat
  numAwards : Nat
  finalScore : ℚ
deriving Repr, DecidableEq

/-- The shortlist half of `predict_ballon_dor` (`src/app.py` lines 43–71).  The four
hard-coded columns are required — a missing one raises `KeyError`, caught at line 72
and turned into an error value.  `'Avg. Rating'` is coerced with `errors='coerce'` and
the rows whose rating failed to parse are then DROPPED by
`dropna(subset=['Avg. Rating'])` (line 45); `League` is derived from `'Club'`; the
table is always filtered to the top-5 leagues; trophies are counted with delimiter
`', '` and awards with `'; '` using the local `count_items`; finally the score is
computed and the table sorted descending.  The winners-side feature engineering of
lines 30–41 touches only the winners table and has no influence on the returned
shortlist ranking, so it is not modelled. -/
def predict_ballon_dor (shortlist : Table) : Except String (List AppRow) :=
  let hs := shortlist.headers
  if ¬ hs.contains "Avg. Rating" then .error "KeyError: Avg. Rating"
  else if ¬ hs.contains "Club" then .error "KeyError: Club"
  else if ¬ hs.contains "Major Trophies (2024–25)" then
    .error "KeyError: Major Trophies (2024–25)"
  else if ¬ hs.contains "Individual Awards (2024–25)" then
    .error "KeyError: Individual Awards (2024–25)"
  else
    let rows1 := shortlist.rows.filterMap (fun r =>
      (toNumericCell (getCell hs r "Avg. Rating")).map (fun q => (r, q)))
    let rows2 := (rows1.map (fun p =>
      (p.1, p.2, leagueOfClubCellApp (getCell hs p.1 "Club")))).filter
        (fun t => match t.2.2 with
          | some l => top_5_leagues.contains l
          | none => false)
    let rows3 := rows2.map (fun t =>
      let nt := count_items_app (getCell hs t.1 "Major Trophies (2024–25)") ", "
      let na := count_items_app (getCell hs t.1 "Individual Awards (2024–25)") "; "
      { raw := t.1, avgRating := t.2.1, league := t.2.2, numTrophies := nt,
        numAwards := na,
        finalScore := ratAdd (ratAdd t.2.1 (ratMul (ratOfNat nt) TROPHY_BONUS))
          (ratMul (ratOfNat na) AWARDS_BONUS) : AppRow })
    .ok (sort_values_desc (fun r => r.finalScore) rows3)

/-- The Column Resolver as the specification words it (spec §4.2), for comparison with
`find_column`: pass 1 returns, for the earliest candidate in priority order, the header
whose case-insensitive whitespace-trimmed form matches the candidate exactly; only when
no candidate matches exactly does pass 2 return the first header (candidates in order,
then headers in original order) whose case-insensitive form contains the normalised
candidate as a substring; otherwise the absence sentinel. -/
def resolveSpec (headers candidates : List String) : Option String :=
  match candidates.findSome?
      (fun cand => headers.find? (fun h => normKey h = normKey cand)) with
  | some col => some col
  | none =>
      candidates.findSome? (fun cand =>
        headers.find? (fun col => containsSub (normKey cand).toList (pyLower col).toList))

/-- Winners table used by the concrete scenarios: only consulted for column detection. -/
def scenarioWinners : Table := ⟨["Player", "Year"], []⟩

/-- The spec's two-row scenario (§8): Player A with rating `"8.5"` and two trophies,
Player B with rating `"9.0"` and none; no award column resolvable. -/
def scenarioShortlist : Table :=
  ⟨["Player", "Rating", "Trophies"],
   [[some "A", some "8.5", some "X, Y"], [some "B", some "9.0", some ""]]⟩

/-- A candidate table whose rating, trophy and award columns are all unresolvable,
with a club value carrying a parenthetical league. -/
def unresolvableShortlist : Table :=
  ⟨["Player", "Club"], [[some "A", some "Real Madrid (La Liga, Spain)"]]⟩

/-- A candidate table whose single club value has no parenthetical group. -/
def noParenShortlist : Table :=
  ⟨["Player", "Club", "Rating"], [[some "A", some "Arsenal", some "7.0"]]⟩

/-- A candidate table whose rating column resolves and contains only the value `"0.0"`. -/
def zeroRatingShortlist : Table :=
  ⟨["Player", "Rating"], [[some "A", some "0.0"]]⟩

/-- A shortlist for `predict_ballon_dor` (`src/app.py`): row A's rating cell `"N/A"`
fails numeric coercion while row B parses; both clubs are in top-5 leagues. -/
def appShortlist : Table :=
  ⟨["Player", "Avg. Rating", "Club", "Major Trophies (2024–25)",
    "Individual Awards (2024–25)"],
   [[some "A", some "N/A", some "X (La Liga)", some "T1, T2", some "—"],
    [some "B", some "7.0", some "Y (Serie A)", some "—", some "—"]]⟩

/-- An all-absent diagnostic record, for feeding `compute_scores` directly. -/
def emptyDetected : Detected :=
  ⟨none, none, none, none, none, none, none, none, none, none, [], []⟩

/-- The scenario's top-ranked scored row (A: rating 8.5, two trophies, score 12.5). -/
def scenarioRankingA : ScoredRow :=
  ⟨⟨some "A", some (mkRat 17 2), 2, 0, none, none⟩, mkRat 17 2, mkRat 25 2⟩

/-- The scenario's second scored row (B: rating 9.0, no trophies, score 9.0). -/
def scenarioRankingB : ScoredRow :=
  ⟨⟨some "B", some (mkRat 9 1), 0, 0, none, none⟩, mkRat 9 1, mkRat 9 1⟩

/-- A derived row carrying real signal (a nonzero rating), for exercising the
success path of the scorer. -/
def tieRowA : PreparedRow := ⟨some "A", some (mkRat 5 1), 0, 0, none, none⟩

/-- The single surviving processed row of `predict_ballon_dor` on `appShortlist`. -/
def appRowB : AppRow :=
  ⟨[some "B", some "7.0", some "Y (Serie A)", some "—", some "—"], mkRat 7 1,
   some "Serie A", 0, 0, mkRat 7 1⟩

theorem ratAdd_eq_add (a b : ℚ) : ratAdd a b = a + b := by
  rw [Rat.add_def, Rat.normalize_eq_mkRat]
  rfl

theorem ratMul_eq_mul (a b : ℚ) : ratMul a b = a * b := by
  rw [Rat.mul_def, Rat.normalize_eq_mkRat]
  rfl

theorem ratOfNat_eq_cast (n : Nat) : ratOfNat n = (n : ℚ) := by
  unfold ratOfNat
  rw [Rat.mkRat_one]
  simp

theorem AWARDS_BONUS_eq : AWARDS_BONUS = 3 / 2 := by
  unfold AWARDS_BONUS
  rw [Rat.mkRat_eq_divInt, Rat.divInt_eq_div]
  norm_num

theorem finalScoreOf_eq (r : PreparedRow) :
    finalScoreOf r = r.avgRating.getD 0 + r.numTrophies * TROPHY_BONUS
      + r.numAwards * AWARDS_BONUS := by
  unfold finalScoreOf
  rw [ratAdd_eq_add, ratAdd_eq_add, ratMul_eq_mul, ratMul_eq_mul,
    ratOfNat_eq_cast, ratOfNat_eq_cast]

theorem mem_sort_values_desc {α : Type} (key : α → ℚ) (xs : List α) (x : α) :
    x ∈ sort_values_desc key xs ↔ x ∈ xs := by
  simp [sort_values_desc, List.mem_insertionSort]

theorem compute_scores_def (rows : List PreparedRow) (det : Detected) (t5 : Bool) :
    compute_scores rows det t5 =
      if ((leagueFilter t5 rows).filter usableRow).length = 0 then
        .error (.noValidFeatures det)
      else
        .ok (sort_values_desc (fun sr => sr.finalScore)
          ((leagueFilter t5 rows).map scoreRow)) := rfl

theorem mem_of_mem_leagueFilter {t5 : Bool} {rows : List PreparedRow} {r : PreparedRow}
    (h : r ∈ leagueFilter t5 rows) : r ∈ rows := by
  cases t5 with
  | false => exact h
  | true =>
    have h2 : r ∈ rows.filter (fun r => match r.league with
        | some l => top_5_leagues.contains l
        | none => false) := h
    exact List.mem_of_mem_filter h2

theorem compute_scores_error_of_all_unusable {rows : List PreparedRow} {det : Detected}
    {t5 : Bool} (h : ∀ r ∈ rows, usableRow r = false) :
    compute_scores rows det t5 = .error (.noValidFeatures det) := by
  rw [compute_scores_def]
  have hnil : (leagueFilter t5 rows).filter usableRow = [] := by
    rw [List.filter_eq_nil_iff]
    intro r hr
    simp [h r (mem_of_mem_leagueFilter hr)]
  simp [hnil]

theorem compute_scores_ok_of_usable {rows : List PreparedRow} {det : Detected}
    {r : PreparedRow} (hr : r ∈ rows) (hu : usableRow r = true) :
    ∃ out, compute_scores rows det false = .ok out := by
  have hflt : leagueFilter false rows = rows := rfl
  have hmem : r ∈ rows.filter usableRow := List.mem_filter.mpr ⟨hr, hu⟩
  have hpos := List.length_pos_of_mem hmem
  refine ⟨sort_values_desc (fun sr => sr.finalScore) (rows.map scoreRow), ?_⟩
  rw [compute_scores_def, hflt, if_neg (by omega)]

theorem mem_compute_scores_ok {rows : List PreparedRow} {det : Detected} {t5 : Bool}
    {out : List ScoredRow} {sr : ScoredRow}
    (hout : compute_scores rows det t5 = .ok out) (hm : sr ∈ out) :
    ∃ r, r ∈ leagueFilter t5 rows ∧ sr = scoreRow r := by
  rw [compute_scores_def] at hout
  split at hout
  · cases hout
  · obtain rfl := (Except.ok.injEq _ _).mp hout
    rw [mem_sort_values_desc] at hm
    obtain ⟨r, hr, heq⟩ := List.mem_map.mp hm
    exact ⟨r, hr, heq.symm⟩

theorem find?_reverse_eq_of_nodup_keys {xs : List String} {k : String}
    (h : (xs.map normKey).Nodup) :
    xs.reverse.find? (fun x => normKey x = k) = xs.find? (fun x => normKey x = k) := by
  induction xs with
  | nil => rfl
  | cons a rest ih =>
    simp only [List.map_cons, List.nodup_cons] at h
    obtain ⟨hna, hrest⟩ := h
    have ihr := ih hrest
    rw [List.reverse_cons, List.find?_append]
    by_cases hk : normKey a = k
    · have hnone : rest.find? (fun x => normKey x = k) = none := by
        rw [List.find?_eq_none]
        intro x hx
        simp only [decide_eq_true_eq]
        intro hxk
        have hmm : normKey x ∈ List.map normKey rest := List.mem_map_of_mem normKey hx
        rw [hxk, ← hk] at hmm
        exact hna hmm
      have hrev : rest.reverse.find? (fun x => normKey x = k) = none := by
        rw [ihr]
        exact hnone
      have hone : List.find? (fun x => normKey x = k) [a] = some a :=
        List.find?_cons_of_pos _ (by simp [hk])
      have htwo : List.find? (fun x => normKey x = k) (a :: rest) = some a :=
        List.find?_cons_of_pos _ (by simp [hk])
      rw [hrev, Option.none_or, hone, htwo]
    · have hone : List.find? (fun x => normKey x = k) [a] = none := by
        have := List.find?_cons_of_neg (p := fun x => normKey x = k) (a := a) []
          (by simp [hk])
        rw [this]
        rfl
      have htwo : List.find? (fun x => normKey x = k) (a :: rest)
          = List.find? (fun x => normKey x = k) rest :=
        List.find?_cons_of_neg _ (by simp [hk])
      rw [hone, Option.or_none, ihr, htwo]

theorem skipToOpen_append {a rest : List Char} (ha : '(' ∉ a) :
    skipToOpen (a ++ '(' :: rest) = '(' :: rest := by
  induction a with
  | nil => simp [skipToOpen]
  | cons x xs ih =>
    simp only [List.mem_cons, not_or] at ha
    obtain ⟨hx, hxs⟩ := ha
    rw [List.cons_append]
    unfold skipToOpen
    rw [if_neg (fun hh => hx hh.symm)]
    exact ih hxs

theorem takeUntilClose_append {b c : List Char} (hb : ')' ∉ b) :
    takeUntilClose (b ++ ')' :: c) = some b := by
  induction b with
  | nil => simp [takeUntilClose]
  | cons x xs ih =>
    simp only [List.mem_cons, not_or] at hb
    obtain ⟨hx, hxs⟩ := hb
    rw [List.cons_append]
    unfold takeUntilClose
    rw [if_neg (fun hh => hx hh.symm), ih hxs]
    rfl

theorem extractParen_of_split {a b c : List Char} (ha : '(' ∉ a) (hb : ')' ∉ b) :
    extractParen (String.mk (a ++ '(' :: (b ++ ')' :: c))) = some (String.mk b) := by
  unfold extractParen
  rw [show (String.mk (a ++ '(' :: (b ++ ')' :: c))).toList
      = a ++ '(' :: (b ++ ')' :: c) from rfl]
  rw [skipToOpen_append ha]
  simp [takeUntilClose_append hb]

theorem pySplitAux_single_ne_nil (c : Char) :
    ∀ (n : Nat) (l acc : List Char), pySplitAux c [] n l acc ≠ []
  | _, [], _ => by simp [pySplitAux]
  | 0, _ :: _, _ => by simp [pySplitAux]
  | n + 1, x :: xs, acc => by
    unfold pySplitAux
    split
    · simp
    · exact pySplitAux_single_ne_nil c n xs (x :: acc)

theorem takeToChar_cons_eq (c : Char) (xs : List Char) :
    takeToChar c (c :: xs) = [] := by
  simp [takeToChar]

theorem takeToChar_cons_ne {c x : Char} (xs : List Char) (hx : ¬ x = c) :
    takeToChar c (x :: xs) = x :: takeToChar c xs := by
  simp only [takeToChar]
  rw [if_neg hx]

theorem pySplitAux_single_head (c : Char) :
    ∀ (n : Nat) (l acc : List Char), l.length ≤ n →
      (pySplitAux c [] n l acc).headD [] = acc.reverse ++ takeToChar c l
  | _, [], acc => by intro _; simp [pySplitAux, takeToChar]
  | 0, x :: xs, acc => by intro h; simp at h
  | n + 1, x :: xs, acc => by
    intro hlen
    unfold pySplitAux
    by_cases hx : x = c
    · subst hx
      have hpre : [x].isPrefixOf (x :: xs) = true := by
        simp [List.isPrefixOf]
      rw [if_pos hpre]
      rw [takeToChar_cons_eq]
      simp
    · have hpre : ([c].isPrefixOf (x :: xs)) = false := by
        have hcx : ([c].isPrefixOf (x :: xs)) = (c == x) := by
          simp [List.isPrefixOf]
        rw [hcx, beq_eq_false_iff_ne]
        exact fun hh => hx hh.symm
      rw [if_neg (by simp [hpre])]
      have hlen2 : xs.length ≤ n := by
        simp only [List.length_cons] at hlen
        omega
      rw [pySplitAux_single_head c n xs (x :: acc) hlen2]
      rw [takeToChar_cons_ne xs hx]
      simp

theorem pySplit_comma_head (l : List Char) :
    (pySplit (String.mk l) ",").headD "" = String.mk (takeToChar ',' l) := by
  have h1 : pySplit (String.mk l) "," = (pySplitAux ',' [] l.length l []).map String.mk := rfl
  obtain ⟨h, t, ht⟩ :=
    List.exists_cons_of_ne_nil (pySplitAux_single_ne_nil ',' l.length l [])
  have h2 := pySplitAux_single_head ',' l.length l [] (le_refl _)
  rw [ht] at h2
  simp only [List.headD_cons, List.reverse_nil, List.nil_append] at h2
  rw [h1, ht]
  simp only [List.map_cons, List.headD_cons, h2]

theorem takeToChar_append_stop {b1 b2 : List Char} (h : ',' ∉ b1) :
    takeToChar ',' (b1 ++ ',' :: b2) = b1 := by
  induction b1 with
  | nil => simp [takeToChar]
  | cons x xs ih =>
    simp only [List.mem_cons, not_or] at h
    obtain ⟨hx, hxs⟩ := h
    rw [List.cons_append]
    unfold takeToChar
    rw [if_neg (fun hh => hx hh.symm), ih hxs]

theorem takeToChar_no_comma {b : List Char} (h : ',' ∉ b) :
    takeToChar ',' b = b := by
  induction b with
  | nil => rfl
  | cons x xs ih =>
    simp only [List.mem_cons, not_or] at h
    obtain ⟨hx, hxs⟩ := h
    unfold takeToChar
    rw [if_neg (fun hh => hx hh.symm), ih hxs]

theorem leagueOfClubCell_extract_comma {cell : Option String} {b1 b2 : List Char}
    (hx : extractParen (pyStrOfCell cell) = some (String.mk (b1 ++ ',' :: b2)))
    (h1 : ',' ∉ b1) :
    leagueOfClubCell cell = pyStrip (String.mk b1) := by
  unfold leagueOfClubCell
  rw [hx]
  show pyStrip ((pySplit (String.mk (b1 ++ ',' :: b2)) ",").headD "") = _
  rw [pySplit_comma_head, takeToChar_append_stop h1]

theorem leagueOfClubCell_extract_nocomma {cell : Option String} {b : List Char}
    (hx : extractParen (pyStrOfCell cell) = some (String.mk b)) (h1 : ',' ∉ b) :
    leagueOfClubCell cell = pyStrip (String.mk b) := by
  unfold leagueOfClubCell
  rw [hx]
  show pyStrip ((pySplit (String.mk b) ",").headD "") = _
  rw [pySplit_comma_head, takeToChar_no_comma h1]

theorem leagueOfClubCell_extract_none {s : String}
    (hx : extractParen s = none) : leagueOfClubCell (some s) = "nan" := by
  unfold leagueOfClubCell
  rw [show pyStrOfCell (some s) = s from rfl, hx]
  rfl

theorem load_and_prepare_fst (w s : Table) :
    (load_and_prepare w s).1 =
      s.rows.map (prepareRow (s.headers.map pyStrip)
        (optTruthy (find_column (s.headers.map pyStrip) player_candidates))
        (optTruthy (find_column (s.headers.map pyStrip) avg_candidates))
        (optTruthy (find_column (s.headers.map pyStrip) trophies_candidates))
        (optTruthy (find_column (s.headers.map pyStrip) awards_candidates))
        (optTruthy (find_column (s.headers.map pyStrip) club_candidates))) := rfl

theorem prepareRow_league_none (sHeaders : List String)
    (pc ac tc awc : Option String) (r : List (Option String)) :
    (prepareRow sHeaders pc ac tc awc none r).league = none := rfl

/-- Claim C1: every row of a successful ranking carries the composite score
`rating-or-zero + trophy_count * TROPHY_BONUS + award_count * AWARDS_BONUS` with the
default weights 2.0 and 1.5; and on the spec's two-row scenario (A: rating `"8.5"` with
two trophies, B: rating `"9.0"` with none, no award column resolvable) the scores are
A = 12.5 and B = 9.0, the ranking is `[A, B]`, and the predicted winner is A. -/
theorem composite_score_formula_and_scenario :
    (∀ (rows : List PreparedRow) (det : Detected) (t5 : Bool) (out : List ScoredRow),
      compute_scores rows det t5 = .ok out → ∀ sr ∈ out,
        sr.finalScore = sr.row.avgRating.getD 0 + sr.row.numTrophies * TROPHY_BONUS
          + sr.row.numAwards * AWARDS_BONUS) ∧
    TROPHY_BONUS = 2 ∧ AWARDS_BONUS = 3 / 2 ∧
    (load_and_prepare scenarioWinners scenarioShortlist).2.awardsColumn = none ∧
    (compute_scores (load_and_prepare scenarioWinners scenarioShortlist).1
        (load_and_prepare scenarioWinners scenarioShortlist).2 false).map
      (fun out => out.map (fun sr => (sr.row.player, sr.finalScore)))
      = .ok [(some "A", mkRat 25 2), (some "B", mkRat 9 1)] ∧
    mkRat 25 2 = 25 / 2 ∧ mkRat 9 1 = 9 ∧
    (compute_scores (load_and_prepare scenarioWinners scenarioShortlist).1
        (load_and_prepare scenarioWinners scenarioShortlist).2 false).map
      predicted_winner = .ok (.winner (some "A")) := by
  refine ⟨?_, rfl, AWARDS_BONUS_eq, rfl, rfl, ?_, ?_, rfl⟩
  · intro rows det t5 out hout sr hm
    obtain ⟨r, _, rfl⟩ := mem_compute_scores_ok hout hm
    exact finalScoreOf_eq r
  · rw [Rat.mkRat_eq_divInt, Rat.divInt_eq_div]
    norm_num
  · rw [Rat.mkRat_one]
    norm_num

/-- Witness for C1: the per-row score formula instantiated at the top row of the
concrete scenario ranking. -/
theorem composite_score_formula_witness :
    scenarioRankingA.finalScore = scenarioRankingA.row.avgRating.getD 0
      + scenarioRankingA.row.numTrophies * TROPHY_BONUS
      + scenarioRankingA.row.numAwards * AWARDS_BONUS :=
  composite_score_formula_and_scenario.1
    (load_and_prepare scenarioWinners scenarioShortlist).1
    (load_and_prepare scenarioWinners scenarioShortlist).2 false
    [scenarioRankingA, scenarioRankingB] rfl scenarioRankingA (by decide)

/-- Claim C5: when every row's three features are simultaneously neutral/missing — as
when none of the three feature columns resolves — the scorer fails with the
no-valid-features error carrying the diagnostic record (shown end-to-end on a table
where every feature column is absent), and conversely a run whose rows include real
signal succeeds. -/
theorem no_signal_fails_with_diagnostic :
    (∀ (rows : List PreparedRow) (det : Detected) (t5 : Bool),
      (∀ r ∈ rows, r.avgRating = none ∧ r.numTrophies = 0 ∧ r.numAwards = 0) →
      compute_scores rows det t5 = .error (.noValidFeatures det)) ∧
    (compute_scores (load_and_prepare scenarioWinners unresolvableShortlist).1
        (load_and_prepare scenarioWinners unresolvableShortlist).2 false
      = .error (.noValidFeatures
          (load_and_prepare scenarioWinners unresolvableShortlist).2)) ∧
    ((load_and_prepare scenarioWinners unresolvableShortlist).2.avgColumn = none ∧
      (load_and_prepare scenarioWinners unresolvableShortlist).2.trophiesColumn = none ∧
      (load_and_prepare scenarioWinners unresolvableShortlist).2.awardsColumn = none) ∧
    (∀ (rows : List PreparedRow) (det : Detected) (r : PreparedRow),
      r ∈ rows → usableRow r = true →
      ∃ out, compute_scores rows det false = .ok out) := by
  refine ⟨?_, rfl, ⟨rfl, rfl, rfl⟩, ?_⟩
  · intro rows det t5 h
    apply compute_scores_error_of_all_unusable
    intro r hr
    obtain ⟨h1, h2, h3⟩ := h r hr
    simp [usableRow, h1, h2, h3]
  · intro rows det r hr hu
    exact compute_scores_ok_of_usable hr hu

/-- Witness for C5: the neutral-rows direction and the signal direction instantiated on
concrete one-row tables. -/
theorem no_signal_witness :
    compute_scores [⟨some "A", none, 0, 0, none, none⟩] emptyDetected false
      = .error (.noValidFeatures emptyDetected) ∧
    (∃ out, compute_scores [tieRowA] emptyDetected false = .ok out) :=
  ⟨no_signal_fails_with_diagnostic.1 [⟨some "A", none, 0, 0, none, none⟩]
      emptyDetected false (by decide),
   no_signal_fails_with_diagnostic.2.2.2 [tieRowA] emptyDetected tieRowA (by decide)
      (by decide)⟩

/-- Claim C9: `count_items` in `src/scikitlearn.py` ignores its `delimiter` parameter —
any two delimiter arguments give the same count on every cell. -/
theorem count_items_ignores_delimiter :
    ∀ (t : Option String) (d1 d2 : String), count_items t d1 = count_items t d2 := by
  intro t d1 d2
  cases t <;> rfl

/-- Claim C10: `compute_scores` treats a feature value of exactly 0 as absence of
signal — rows whose rating is missing or exactly 0 and whose counts are 0 trigger the
no-valid-features error even when the rating column resolved and genuinely contains
zeros (shown end-to-end on a table whose resolved rating column holds `"0.0"`), and it
does not raise when some row has a nonzero rating, trophy count or award count. -/
theorem zero_features_treated_as_absent :
    (∀ (rows : List PreparedRow) (det : Detected),
      (∀ r ∈ rows, (r.avgRating = none ∨ r.avgRating = some 0) ∧ r.numTrophies = 0
        ∧ r.numAwards = 0) →
      compute_scores rows det false = .error (.noValidFeatures det)) ∧
    (compute_scores (load_and_prepare scenarioWinners zeroRatingShortlist).1
        (load_and_prepare scenarioWinners zeroRatingShortlist).2 false
      = .error (.noValidFeatures
          (load_and_prepare scenarioWinners zeroRatingShortlist).2)) ∧
    ((load_and_prepare scenarioWinners zeroRatingShortlist).2.avgColumn
      = some "Rating") ∧
    (∀ (rows : List PreparedRow) (det : Detected) (r : PreparedRow), r ∈ rows →
      ((∃ q, r.avgRating = some q ∧ q ≠ 0) ∨ r.numTrophies ≠ 0 ∨ r.numAwards ≠ 0) →
      ∃ out, compute_scores rows det false = .ok out) := by
  refine ⟨?_, rfl, rfl, ?_⟩
  · intro rows det h
    apply compute_scores_error_of_all_unusable
    intro r hr
    obtain ⟨h1, h2, h3⟩ := h r hr
    rcases h1 with h1 | h1 <;> simp [usableRow, h1, h2, h3]
  · intro rows det r hr hu
    apply compute_scores_ok_of_usable hr
    rcases hu with ⟨q, hq, hq0⟩ | hu | hu
    · simp [usableRow, hq, hq0]
    · simp [usableRow, hu]
    · simp [usableRow, hu]

/-- Witness for C10: a resolved rating of exactly 0 raises; a nonzero trophy count on
an otherwise empty row succeeds. -/
theorem zero_features_witness :
    compute_scores [⟨some "A", some 0, 0, 0, none, none⟩] emptyDetected false
      = .error (.noValidFeatures emptyDetected) ∧
    (∃ out, compute_scores [⟨some "A", none, 1, 0, none, none⟩] emptyDetected false
      = .ok out) :=
  ⟨zero_features_treated_as_absent.1 [⟨some "A", some 0, 0, 0, none, none⟩]
      emptyDetected (by decide),
   zero_features_treated_as_absent.2.2.2 [⟨some "A", none, 1, 0, none, none⟩]
      emptyDetected ⟨some "A", none, 1, 0, none, none⟩ (by decide)
      (Or.inr (Or.inl (by decide)))⟩

/-- Counterexample to claim C2 as stated: the `count_items` local to
`predict_ballon_dor` in `src/app.py` (one of the claim's cited definitions) returns 1,
not 0, on the empty-string placeholder, and 1 instead of 2 on `"A,,B"` under the
`', '` delimiter it is invoked with. -/
theorem app_count_items_empty_not_zero :
    count_items_app (some "") ", " = 1 ∧ count_items_app (some "A,,B") ", " = 1 :=
  ⟨rfl, rfl⟩

/-- Claim C2 (amended): the module-level `count_items` of `src/scikitlearn.py` behaves
exactly as the claim states — 0 on a missing cell and on every placeholder (empty,
`'—'`, `'-'`, `'None'`, `'nan'` after stripping), otherwise the number of tokens with
nonempty trimmed form after semicolon normalisation and comma split, with the claimed
concrete values; the local `count_items` of `src/app.py` instead returns 0 only on
missing values and the lone em-dash and counts raw delimiter-separated parts without
dropping empties. -/
theorem count_items_behaviour :
    (∀ d, count_items none d = 0) ∧
    (∀ s d, pyStrip s = "" ∨ pyStrip s = "—" ∨ pyStrip s = "-" ∨ pyStrip s = "None"
        ∨ pyStrip s = "nan" → count_items (some s) d = 0) ∧
    (count_items (some "") "," = 0 ∧ count_items (some "—") "," = 0 ∧
      count_items (some "A, B, C") "," = 3 ∧ count_items (some "A; B") "," = 2 ∧
      count_items (some "A,,B") "," = 2) ∧
    (∀ s d, ¬(pyStrip s = "" ∨ pyStrip s = "—" ∨ pyStrip s = "-" ∨ pyStrip s = "None"
        ∨ pyStrip s = "nan") →
      count_items (some s) d
        = ((pySplit (pyReplaceChar (pyStrip s) ';' ',') ",").filter
            (fun p => pyStrip p ≠ "")).length) ∧
    (∀ d, count_items_app none d = 0) ∧
    (∀ d, count_items_app (some "—") d = 0) ∧
    (∀ s d, ¬ s = "—" → count_items_app (some s) d = (pySplit s d).length) := by
  refine ⟨fun d => rfl, ?_, ⟨rfl, rfl, rfl, rfl, rfl⟩, ?_, fun d => rfl, fun d => rfl, ?_⟩
  · intro s d h
    rcases h with h | h | h | h | h <;> simp [count_items, h]
  · intro s d h
    push_neg at h
    obtain ⟨h1, h2, h3, h4, h5⟩ := h
    simp [count_items, h1, h2, h3, h4, h5]
  · intro s d h
    simp [count_items_app, h]

/-- Witness for C2: the placeholder clause at a padded em-dash and the token-count
clause at `"A, B, C"`. -/
theorem count_items_behaviour_witness :
    count_items (some " — ") "," = 0 ∧
    count_items (some "A, B, C") ";"
      = ((pySplit (pyReplaceChar (pyStrip "A, B, C") ';' ',') ",").filter
          (fun p => pyStrip p ≠ "")).length :=
  ⟨count_items_behaviour.2.1 " — " "," (Or.inr (Or.inl (by decide))),
   count_items_behaviour.2.2.2.1 "A, B, C" ";" (by decide)⟩

/-- Claim C3: on header lists whose normalised (lower-cased, trimmed) forms are
pairwise distinct — so that "the header exactly matching" is well defined — the source
`find_column` coincides with the Column Resolver as the specification words it: the
exact pass in candidate priority order, only then the substring fallback scanning
candidates in order and headers in original order, and the absence sentinel when
neither matches (it never raises, being a total function). -/
theorem find_column_matches_spec (headers candidates : List String)
    (h : (headers.map normKey).Nodup) :
    find_column headers candidates = resolveSpec headers candidates := by
  unfold find_column resolveSpec colMapLookup
  have hfun : (fun cand => List.find? (fun x => normKey x = normKey cand) headers.reverse)
      = (fun cand => List.find? (fun x => normKey x = normKey cand) headers) := by
    funext cand
    exact find?_reverse_eq_of_nodup_keys h
  rw [hfun]

/-- Witness for C3: the spec's concrete examples — exact match beats earlier-listed
absent candidates, the substring fallback fires only after the exact pass, and a
no-match returns the sentinel. -/
theorem find_column_matches_spec_witness :
    ((["Avg. Rating", "Club"].map normKey).Nodup ∧
      find_column ["Avg. Rating", "Club"] ["Average Rating", "Avg. Rating", "Rating"]
        = resolveSpec ["Avg. Rating", "Club"] ["Average Rating", "Avg. Rating", "Rating"]) ∧
    find_column ["Avg. Rating", "Club"] ["Average Rating", "Avg. Rating", "Rating"]
      = some "Avg. Rating" ∧
    find_column ["Average Player Rating"] ["Rating"] = some "Average Player Rating" ∧
    find_column ["Foo"] ["Rating"] = none :=
  ⟨⟨by decide, find_column_matches_spec _ _ (by decide)⟩, rfl, rfl, rfl⟩

/-- Counterexample to claim C6 as stated: in `predict_ballon_dor` (`src/app.py`, cited
by the claim) the row whose rating cell `"N/A"` fails numeric coercion is dropped by
`dropna(subset=['Avg. Rating'])` — the returned ranking contains only row B, not a
kept row A with rating treated as zero. -/
theorem app_coercion_failure_drops_row :
    predict_ballon_dor appShortlist = .ok [appRowB] := rfl

/-- Claim C6 (amended): in the `scikitlearn.py` pipeline a rating cell that fails
coercion becomes missing, contributes 0 to the composite score and the row is kept
(the derived table always has exactly one row per input row); in `src/app.py`'s
`predict_ballon_dor` such rows are instead dropped before scoring — every surviving
row's rating cell coerces successfully; in both variants cell-level coercion failure
never aborts the run (the scorer's only failure is the no-valid-features error). -/
theorem coercion_failure_handling :
    (∀ w s : Table, ((load_and_prepare w s).1).length = s.rows.length) ∧
    (∀ r : PreparedRow, r.avgRating = none →
      finalScoreOf r = r.numTrophies * TROPHY_BONUS + r.numAwards * AWARDS_BONUS) ∧
    (∀ (s : Table) (out : List AppRow), predict_ballon_dor s = .ok out → ∀ ar ∈ out,
      toNumericCell (getCell s.headers ar.raw "Avg. Rating") = some ar.avgRating) ∧
    (∀ (rows : List PreparedRow) (det : Detected) (t5 : Bool) (e : ScoreError),
      compute_scores rows det t5 = .error e → e = .noValidFeatures det) := by
  refine ⟨?_, ?_, ?_, ?_⟩
  · intro w s
    rw [load_and_prepare_fst]
    exact List.length_map _ _
  · intro r h
    rw [finalScoreOf_eq, h]
    simp
  · intro s out hout ar har
    unfold predict_ballon_dor at hout
    dsimp only [] at hout
    split at hout
    · cases hout
    · split at hout
      · cases hout
      · split at hout
        · cases hout
        · split at hout
          · cases hout
          · obtain rfl := (Except.ok.injEq _ _).mp hout
            rw [mem_sort_values_desc] at har
            obtain ⟨t, ht, rfl⟩ := List.mem_map.mp har
            have ht2 := List.mem_of_mem_filter ht
            obtain ⟨q, hq, rfl⟩ := List.mem_map.mp ht2
            rw [List.mem_filterMap] at hq
            obtain ⟨raw, _, heq⟩ := hq
            rw [Option.map_eq_some'] at heq
            obtain ⟨v, hv, rfl⟩ := heq
            exact hv
  · intro rows det t5 e h
    rw [compute_scores_def] at h
    split at h
    · exact ((Except.error.injEq _ _).mp h).symm
    · cases h

/-- Witness for C6: the surviving row of the concrete `app.py` run has a successfully
coerced rating cell, and a row with missing rating scores on counts alone. -/
theorem coercion_failure_handling_witness :
    toNumericCell (getCell appShortlist.headers appRowB.raw "Avg. Rating")
      = some appRowB.avgRating ∧
    finalScoreOf ⟨some "A", none, 1, 2, none, none⟩
      = (1 : Nat) * TROPHY_BONUS + (2 : Nat) * AWARDS_BONUS :=
  ⟨coercion_failure_handling.2.2.1 appShortlist [appRowB] rfl appRowB (by decide),
   coercion_failure_handling.2.1 ⟨some "A", none, 1, 2, none, none⟩ rfl⟩

/-- Counterexample to claim C7 as stated: for a club cell without any parenthetical
group (`"Arsenal"`) the derived league is the literal string `"nan"` — the stringified
NaN produced by the `astype(str)` after `str.extract` — not a missing value. -/
theorem league_no_paren_is_nan_string :
    (load_and_prepare scenarioWinners noParenShortlist).1.map (fun r => r.league)
      = [some "nan"] ∧ (some "nan" : Option String) ≠ none :=
  ⟨rfl, by decide⟩

/-- Claim C7 (amended): with a resolved club column, the derived league is the text
inside the first parenthetical group truncated at the first comma and trimmed (shown
both in general and end-to-end: `"Real Madrid (La Liga, Spain)"` gives `"La Liga"`);
when the club text has no parenthetical the league becomes the placeholder string
`"nan"` rather than a missing value; only when no club column resolves is the league
missing. -/
theorem league_extraction_behaviour :
    (∀ (a b c : List Char), '(' ∉ a → ')' ∉ b →
      extractParen (String.mk (a ++ '(' :: (b ++ ')' :: c))) = some (String.mk b)) ∧
    (∀ (cell : Option String) (b1 b2 : List Char),
      extractParen (pyStrOfCell cell) = some (String.mk (b1 ++ ',' :: b2)) →
      ',' ∉ b1 → leagueOfClubCell cell = pyStrip (String.mk b1)) ∧
    (∀ (cell : Option String) (b : List Char),
      extractParen (pyStrOfCell cell) = some (String.mk b) → ',' ∉ b →
      leagueOfClubCell cell = pyStrip (String.mk b)) ∧
    (∀ s : String, extractParen s = none → leagueOfClubCell (some s) = "nan") ∧
    (∀ (w s : Table),
      optTruthy (find_column (s.headers.map pyStrip) club_candidates) = none →
      ∀ r ∈ (load_and_prepare w s).1, r.league = none) ∧
    (load_and_prepare scenarioWinners unresolvableShortlist).1.map (fun r => r.league)
      = [some "La Liga"] := by
  refine ⟨?_, ?_, ?_, ?_, ?_, rfl⟩
  · exact fun a b c ha hb => extractParen_of_split ha hb
  · exact fun cell b1 b2 hx h1 => leagueOfClubCell_extract_comma hx h1
  · exact fun cell b hx h1 => leagueOfClubCell_extract_nocomma hx h1
  · exact fun s hx => leagueOfClubCell_extract_none hx
  · intro w s hclub r hr
    rw [load_and_prepare_fst] at hr
    obtain ⟨raw, _, rfl⟩ := List.mem_map.mp hr
    rw [hclub]
    exact prepareRow_league_none _ _ _ _ _ _

/-- Witness for C7: the parenthetical-extraction clause at the scenario's club text. -/
theorem league_extraction_witness :
    extractParen (String.mk ("Real Madrid ".toList
        ++ '(' :: ("La Liga, Spain".toList ++ ')' :: [])))
      = some (String.mk "La Liga, Spain".toList) :=
  league_extraction_behaviour.1 "Real Madrid ".toList "La Liga, Spain".toList []
    (by decide) (by decide)

end BallonDor
